import Mathlib

/-!
Verification of the dispatch-and-delivery core of the second-brain web
interface backend (`backend/main.py`).

The backend keeps all mutable state in a Redis store:
- `web_conversation:{user_id}`: the per-user conversation Ledger, a list
  written with `lpush` (newest-first physical order);
- `web_response:{user_id}`: the per-user Response Channel, also written
  with `lpush` and read with `lpop`;
- `TASK_QUEUE`: the shared Job queue, written with `lpush`.

The three key families have distinct fixed prefixes, so the store is
modelled as three disjoint maps. Redis `lpush` prepends to the head of a
list; `lpop` removes the head; `lrange key start stop` slices with
negative indices counting from the end. Nondeterministic inputs of a
request handler (the generated uuids and the two `datetime.now()` values)
are passed as explicit arguments. The routing classifier
(`common.routing`, an external collaborator) is passed as an explicit
record of functions.
-/

namespace SecondBrain

/-- A chat message as stored in Redis: the dicts built in `send_message`
carry keys `id`, `message`, `sender`, `timestamp`, and (for the casual bot
reply) `agent`. Ids and timestamps are opaque / monotonic-comparable, so
they are modelled as `Nat`. -/
structure Message where
  id : Nat
  text : String
  sender : String
  agent : Option String
  timestamp : Nat
deriving Repr, DecidableEq

/-- The request body of `POST /messages/send` (`MessageRequest` in the
source): a message string and an optional agent. -/
structure MessageRequest where
  message : String
  agent : Option String
deriving Repr, DecidableEq

/-- A queued Job (`common.contracts.Job` as constructed in
`send_message`): target agent plus the payload fields used there. -/
structure Job where
  current_agent : String
  text : String
  source : String
  user_id : String
  conversation_history : List Message
deriving Repr, DecidableEq

/-- The routing classifier interface imported from `common.routing`:
`is_casual`, `get_casual_response`, `route_deterministic`. -/
structure Routing where
  is_casual : String → Bool
  get_casual_response : String → String
  route_deterministic : String → String

/-- One observable side effect of `send_message` against the store, in
program order: an `lpush` onto a conversation Ledger, an `lpush` onto a
Response Channel, or an `lpush` onto the task queue. -/
inductive Effect where
  | ledgerAppend (uid : String) (m : Message)
  | responsePublish (uid : String) (m : Message)
  | jobEnqueue (j : Job)
deriving Repr, DecidableEq

/-- The Redis-backed state: conversation Ledgers and Response Channels
keyed by user id (each list newest-first, head = most recent `lpush`),
plus the shared task queue. -/
structure Store where
  conv : String → List Message
  resp : String → List Message
  queue : List Job

/-- Interpret one effect as the corresponding `lpush` on the store. -/
def applyEffect (s : Store) : Effect → Store
  | .ledgerAppend uid m => { s with conv := Function.update s.conv uid (m :: s.conv uid) }
  | .responsePublish uid m => { s with resp := Function.update s.resp uid (m :: s.resp uid) }
  | .jobEnqueue j => { s with queue := j :: s.queue }

/-- Redis `LRANGE key start stop` on a list: negative offsets count from
the end (`-1` is the last element), a stop beyond the end is clamped to
the last element, and an empty slice when start exceeds stop. -/
def redisLrange (l : List α) (start stop : Int) : List α :=
  let n : Int := l.length
  let s : Int := if start < 0 then max (n + start) 0 else start
  let e : Int := min (if stop < 0 then n + stop else stop) (n - 1)
  if s > e then [] else (l.take (e.toNat + 1)).drop s.toNat

/-- Truthiness test from line 209 of the source:
`not message_req.agent or message_req.agent == "auto"` — `None` and the
empty string are falsy in Python. -/
def agentFalsyOrAuto : Option String → Bool
  | none => true
  | some a => a == "" || a == "auto"

/-- Agent selection from lines 226-229 of the source:
`if message_req.agent and message_req.agent != "auto": agent = message_req.agent
else: agent = route_deterministic(message_req.message)`. -/
def pickAgent (R : Routing) (req : MessageRequest) : String :=
  match req.agent with
  | some a => if a = "" ∨ a = "auto" then R.route_deterministic req.message else a
  | none => R.route_deterministic req.message

/-- `POST /messages/send` (`send_message`, lines 185-251), as the ordered
list of store effects it performs plus the returned `MessageResponse`.
`mid` and `rid` are the two `uuid.uuid4()` results, `now` and `now2` the
two `datetime.now()` timestamps. The `lrange` for the conversation
context runs after the user message has been pushed, hence against
`applyEffect s e1`. `expire` (TTL refresh) touches no list content and is
not modelled. -/
def send_message (R : Routing) (user_id : String) (req : MessageRequest)
    (mid rid now now2 : Nat) (s : Store) : List Effect × Message :=
  let message_data : Message := ⟨mid, req.message, "user", none, now⟩
  let e1 := Effect.ledgerAppend user_id message_data
  let s1 := applyEffect s e1
  if agentFalsyOrAuto req.agent && R.is_casual req.message then
    let response_data : Message :=
      ⟨rid, R.get_casual_response req.message, "bot", some "casual", now2⟩
    ([e1, Effect.responsePublish user_id response_data,
      Effect.ledgerAppend user_id response_data], message_data)
  else
    let conversation_history := redisLrange (s1.conv user_id) 0 5
    let job : Job :=
      ⟨pickAgent R req, req.message, "web", user_id,
        ((conversation_history.drop (conversation_history.length - 6)).reverse)⟩
    ([e1, Effect.jobEnqueue job], message_data)

/-- The final store reached by `send_message`: its effects applied in
program order. -/
def send_message_store (R : Routing) (user_id : String) (req : MessageRequest)
    (mid rid now now2 : Nat) (s : Store) : Store :=
  (send_message R user_id req mid rid now now2 s).1.foldl applyEffect s

/-- A `publish` onto the Response Channel: the `lpush` on
`web_response:{user_id}` performed at line 219 and, per the worker-pool
contract, by workers delivering their results. -/
def publish (user_id : String) (m : Message) (s : Store) : Store :=
  applyEffect s (Effect.responsePublish user_id m)

/-- The collection loop of `check_pending_messages` (lines 272-276):
`lpop` until the list is empty, appending each popped entry to the
accumulator. -/
def drainLoop (acc : List Message) : List Message → List Message
  | [] => acc
  | m :: rest => drainLoop (acc ++ [m]) rest

/-- `GET /messages/pending` (`check_pending_messages`, lines 267-277):
returns the popped responses in pop order and the store with that user's
Response Channel emptied. -/
def check_pending_messages (user_id : String) (s : Store) : List Message × Store :=
  (drainLoop [] (s.resp user_id),
   { s with resp := Function.update s.resp user_id [] })

/-- `GET /messages/history` (`get_message_history`, lines 253-265):
`lrange(conv_key, 0, limit - 1)` then `list(reversed(messages))`. -/
def get_message_history (user_id : String) (limit : Int) (s : Store) : List Message :=
  (redisLrange (s.conv user_id) 0 (limit - 1)).reverse

/-- One frame emitted by the SSE generator: a data event carrying one
message, or the `: heartbeat` keep-alive comment. -/
inductive StreamEvent where
  | dataEvent (m : Message)
  | heartbeat
deriving Repr, DecidableEq

/-- One tick of the `event_generator` loop in `message_stream`
(lines 294-304): a single `lpop`; if it yields a message that message is
emitted as one SSE data event, otherwise a heartbeat frame is emitted and
the store is untouched. -/
def message_stream_tick (user_id : String) (s : Store) : StreamEvent × Store :=
  match s.resp user_id with
  | [] => (StreamEvent.heartbeat, s)
  | m :: rest =>
      (StreamEvent.dataEvent m, { s with resp := Function.update s.resp user_id rest })

/-- The messages carried by a stream frame: one for a data event, none
for a heartbeat. -/
def emittedOf : StreamEvent → List Message
  | .dataEvent m => [m]
  | .heartbeat => []

/-- A routing classifier whose calls can fail (raise): used to study how
`send_message` behaves when the imported classifier functions raise,
since the handler body wraps none of the calls at lines 209-229 in
`try/except`. A raised exception aborts the handler at that point and
propagates. -/
structure RoutingF where
  is_casual : String → Except String Bool
  get_casual_response : String → Except String String
  route_deterministic : String → Except String String

/-- `send_message` over a fallible classifier: the same control flow as
`send_message`, with every classifier call able to fail; there being no
`try/except` in the handler, a failure aborts the call (the Ledger
`lpush`, already executed, is not part of the aborted result). Python's
`or`/`and` short-circuit, so `is_casual` is only consulted when
`not message_req.agent or message_req.agent == "auto"` holds, and
`route_deterministic` only when no usable explicit agent is given. -/
def send_messageF (RF : RoutingF) (user_id : String) (req : MessageRequest)
    (mid rid now now2 : Nat) (s : Store) : Except String (List Effect × Message) := do
  let message_data : Message := ⟨mid, req.message, "user", none, now⟩
  let e1 := Effect.ledgerAppend user_id message_data
  let s1 := applyEffect s e1
  let casual ← if agentFalsyOrAuto req.agent then RF.is_casual req.message else pure false
  if casual then
    let cr ← RF.get_casual_response req.message
    let response_data : Message := ⟨rid, cr, "bot", some "casual", now2⟩
    pure ([e1, Effect.responsePublish user_id response_data,
           Effect.ledgerAppend user_id response_data], message_data)
  else
    let agent ← match req.agent with
      | some a =>
          if a = "" ∨ a = "auto" then RF.route_deterministic req.message else pure a
      | none => RF.route_deterministic req.message
    let conversation_history := redisLrange (s1.conv user_id) 0 5
    let job : Job :=
      ⟨agent, req.message, "web", user_id,
        ((conversation_history.drop (conversation_history.length - 6)).reverse)⟩
    pure ([e1, Effect.jobEnqueue job], message_data)

/-- Tests whether an effect is a task-queue enqueue. -/
def isJobEnqueue : Effect → Bool
  | .jobEnqueue _ => true
  | _ => false

/-- Tests whether an effect appends a user-sent message to the given
user's Ledger. -/
def isUserLedger (uid : String) : Effect → Bool
  | .ledgerAppend u m => u == uid && m.sender == "user"
  | _ => false

/-- A string that is empty or consists only of whitespace characters
(the inputs the spec says are rejected). -/
def isBlank (s : String) : Bool := s.data.all Char.isWhitespace

/-- Fixture: a classifier that judges every text casual. -/
def casualYes : Routing :=
  ⟨fun _ => true, fun _ => "Hello! How can I help?", fun _ => "scheduler"⟩

/-- Fixture: a classifier that judges no text casual. -/
def casualNo : Routing :=
  ⟨fun _ => false, fun _ => "unused", fun _ => "scheduler"⟩

/-- Fixture: the store with every list empty. -/
def emptyStore : Store := ⟨fun _ => [], fun _ => [], []⟩

/-- Fixture: a fallible classifier whose casual check raises. -/
def failClassifier : RoutingF :=
  ⟨fun _ => Except.error "boom", fun _ => Except.ok "unused", fun _ => Except.ok "default"⟩

/-- Fixture message for the history endpoint (the oldest entry). -/
def msgU1 : Message := ⟨4, "oldest", "user", none, 1⟩

/-- Fixture message for the history endpoint (the middle entry). -/
def msgU2 : Message := ⟨5, "middle", "bot", none, 2⟩

/-- Fixture message for the history endpoint (the newest entry). -/
def msgU3 : Message := ⟨6, "newest", "user", none, 3⟩

/-- Fixture: a Ledger with three stored messages, newest-first. -/
def histStore : Store :=
  ⟨fun u => if u = "u" then [msgU3, msgU2, msgU1] else [], fun _ => [], []⟩

/-- Fixture: a bot reply published first. -/
def msgA : Message := ⟨1, "first reply", "bot", none, 10⟩

/-- Fixture: a bot reply published second. -/
def msgB : Message := ⟨2, "second reply", "bot", none, 11⟩

/-- Fixture: a store whose Response Channel for user "u" holds two
pending entries, `msgA` published before `msgB` (so `msgB` is at the
head, as `lpush` leaves it). -/
def twoPendingStore : Store :=
  ⟨fun _ => [], fun u => if u = "u" then [msgB, msgA] else [], []⟩

/-- The collection loop of the poll endpoint returns the accumulator
followed by the remaining queue content: popping head-first preserves
the list's own order. -/
theorem drainLoop_eq (l acc : List Message) : drainLoop acc l = acc ++ l := by
  induction l generalizing acc with
  | nil => simp [drainLoop]
  | cons m rest ih => simp [drainLoop, ih]

/-- `LRANGE key 0 k` with a nonnegative stop index is the first `k + 1`
elements. -/
theorem redisLrange_nonneg (l : List α) (k : Int) (hk : 0 ≤ k) :
    redisLrange l 0 k = l.take (k.toNat + 1) := by
  simp only [redisLrange]
  rw [if_neg (by omega : ¬ ((0:Int) < 0)), if_neg (by omega : ¬ k < 0)]
  by_cases hn : l = []
  · subst hn
    simp only [List.length_nil]
    rw [if_pos (by omega)]
    simp
  · have hlen : 1 ≤ l.length := List.length_pos.2 hn
    rw [if_neg (by omega : ¬ (0:Int) > min k ((l.length : Int) - 1))]
    rw [Int.toNat_zero, List.drop_zero, List.take_eq_take]
    omega

/-- `LRANGE key 0 (-1)` selects the whole list: the stop index `-1`
denotes the last element. -/
theorem redisLrange_neg_one (l : List α) : redisLrange l 0 (-1) = l := by
  simp only [redisLrange]
  rw [if_neg (by omega : ¬ ((0:Int) < 0)), if_pos (by omega : (-1:Int) < 0)]
  by_cases hn : l = []
  · subst hn
    simp only [List.length_nil]
    rw [if_pos (by omega)]
  · have hlen : 1 ≤ l.length := List.length_pos.2 hn
    rw [if_neg (by omega : ¬ (0:Int) > min ((l.length : Int) + -1) ((l.length : Int) - 1))]
    rw [Int.toNat_zero, List.drop_zero]
    rw [show (min ((l.length : Int) + -1) ((l.length : Int) - 1)).toNat + 1 = l.length by omega]
    exact List.take_length l

/-- C1: for every valid non-empty message text, `send_message` creates
exactly one Ledger entry with sender "user" for the calling user's id,
and that Ledger append is the first of the call's side effects — it
precedes the casual-path writes and any Job enqueue; the created user
Message is also the returned value. -/
theorem dispatch_ledger_first (R : Routing) (uid : String) (req : MessageRequest)
    (mid rid now now2 : Nat) (s : Store) (h : req.message ≠ "") :
    ((send_message R uid req mid rid now now2 s).1).head? =
      some (Effect.ledgerAppend uid ⟨mid, req.message, "user", none, now⟩) ∧
    ((send_message R uid req mid rid now now2 s).1).countP (isUserLedger uid) = 1 ∧
    (send_message R uid req mid rid now now2 s).2 = ⟨mid, req.message, "user", none, now⟩ := by
  unfold send_message
  cases hb : agentFalsyOrAuto req.agent && R.is_casual req.message with
  | true => simp [hb, List.countP_cons, isUserLedger]
  | false => simp [hb, List.countP_cons, isUserLedger]

/-- Witness for C1 at the concrete dispatch of "hi". -/
theorem dispatch_ledger_first_witness :
    (("hi" : String) ≠ "") ∧
    (((send_message casualYes "u" ⟨"hi", none⟩ 0 1 2 3 emptyStore).1).head? =
      some (Effect.ledgerAppend "u" ⟨0, "hi", "user", none, 2⟩) ∧
    ((send_message casualYes "u" ⟨"hi", none⟩ 0 1 2 3 emptyStore).1).countP (isUserLedger "u") = 1 ∧
    (send_message casualYes "u" ⟨"hi", none⟩ 0 1 2 3 emptyStore).2 = ⟨0, "hi", "user", none, 2⟩) :=
  ⟨by decide, dispatch_ledger_first casualYes "u" ⟨"hi", none⟩ 0 1 2 3 emptyStore (by decide)⟩

/-- C2: when the request carries no usable explicit agent and the
classifier judges the text casual, `send_message` enqueues no Job and
writes one bot Message carrying the classifier's canned reply to both
the Response Channel and the Ledger; whenever the casual path is not
taken, exactly one Job is enqueued. -/
theorem dispatch_casual_vs_job (R : Routing) (uid : String) (req : MessageRequest)
    (mid rid now now2 : Nat) (s : Store) :
    ((agentFalsyOrAuto req.agent && R.is_casual req.message) = true →
      ((send_message R uid req mid rid now now2 s).1).countP isJobEnqueue = 0 ∧
      ∃ bm : Message, bm.sender = "bot" ∧
        bm.text = R.get_casual_response req.message ∧
        Effect.responsePublish uid bm ∈ (send_message R uid req mid rid now now2 s).1 ∧
        Effect.ledgerAppend uid bm ∈ (send_message R uid req mid rid now now2 s).1) ∧
    ((agentFalsyOrAuto req.agent && R.is_casual req.message) = false →
      ((send_message R uid req mid rid now now2 s).1).countP isJobEnqueue = 1) := by
  constructor
  · intro hc
    unfold send_message
    refine ⟨by simp [hc, List.countP_cons, isJobEnqueue], ?_⟩
    exact ⟨⟨rid, R.get_casual_response req.message, "bot", some "casual", now2⟩,
      rfl, rfl, by simp [hc], by simp [hc]⟩
  · intro hc
    unfold send_message
    simp [hc, List.countP_cons, isJobEnqueue]

/-- Witness for C2: a casual dispatch enqueues no Job and a non-casual
dispatch enqueues exactly one. -/
theorem dispatch_casual_vs_job_witness :
    ((send_message casualYes "u" ⟨"hi", none⟩ 0 1 2 3 emptyStore).1).countP isJobEnqueue = 0 ∧
    ((send_message casualNo "u" ⟨"hi", none⟩ 4 5 6 7 emptyStore).1).countP isJobEnqueue = 1 :=
  ⟨((dispatch_casual_vs_job casualYes "u" ⟨"hi", none⟩ 0 1 2 3 emptyStore).1 (by decide)).1,
   (dispatch_casual_vs_job casualNo "u" ⟨"hi", none⟩ 4 5 6 7 emptyStore).2 (by decide)⟩

/-- Counterexample to C3: publishing `msgA` then `msgB` and draining
returns `[msgB, msgA]`, not the publish order `[msgA, msgB]` — the
Response Channel is written with `lpush` and read with `lpop`, a LIFO
stack. -/
theorem drain_publish_order_cex :
    (check_pending_messages "u" (publish "u" msgB (publish "u" msgA emptyStore))).1
      = [msgB, msgA] ∧
    msgA ≠ msgB ∧
    (check_pending_messages "u" (publish "u" msgB (publish "u" msgA emptyStore))).1
      ≠ [msgA, msgB] := by decide

/-- C3 as amended: draining after two publishes for the same user
returns the pending entries in reverse publish order (newest first),
the earlier pending entries following. -/
theorem drain_lifo_order (u : String) (A B : Message) (s : Store) :
    (check_pending_messages u (publish u B (publish u A s))).1 = B :: A :: s.resp u := by
  simp [check_pending_messages, publish, applyEffect, drainLoop_eq, Function.update_same]

/-- Helper for C4: shape of the conversation context built from a Ledger
whose head is the just-pushed message. -/
theorem context_shape (m : Message) (conv : List Message) :
    ((redisLrange (m :: conv) 0 5).drop
        ((redisLrange (m :: conv) 0 5).length - 6)).reverse.length ≤ 6 ∧
    ((redisLrange (m :: conv) 0 5).drop
        ((redisLrange (m :: conv) 0 5).length - 6)).reverse.getLast? = some m ∧
    ∃ t, t ++ ((redisLrange (m :: conv) 0 5).drop
        ((redisLrange (m :: conv) 0 5).length - 6)).reverse = (m :: conv).reverse := by
  have hch : redisLrange (m :: conv) 0 5 = (m :: conv).take 6 := by
    rw [redisLrange_nonneg _ _ (by omega : (0:Int) ≤ 5)]
    congr 1
  have hlen : ((m :: conv).take 6).length ≤ 6 := by
    simp [List.length_take]
  have hdrop : ((m :: conv).take 6).drop (((m :: conv).take 6).length - 6)
      = (m :: conv).take 6 := by
    rw [Nat.sub_eq_zero_of_le hlen, List.drop_zero]
  rw [hch, hdrop]
  refine ⟨by simpa using hlen, ?_, ?_⟩
  · rw [List.getLast?_reverse]
    simp [List.take_succ_cons]
  · exact ⟨((m :: conv).drop 6).reverse,
      by rw [← List.reverse_append, List.take_append_drop]⟩

/-- C4: every non-casual dispatch enqueues a Job whose conversation
context has at most 6 entries, is ordered oldest-first (it is a suffix
of the chronological Ledger after the append), and ends with the user
Message just created by the same call. -/
theorem job_context_bounded (R : Routing) (uid : String) (req : MessageRequest)
    (mid rid now now2 : Nat) (s : Store)
    (hc : (agentFalsyOrAuto req.agent && R.is_casual req.message) = false) :
    ∃ j : Job,
      (send_message R uid req mid rid now now2 s).1 =
        [Effect.ledgerAppend uid ⟨mid, req.message, "user", none, now⟩, Effect.jobEnqueue j] ∧
      j.conversation_history.length ≤ 6 ∧
      j.conversation_history.getLast? = some ⟨mid, req.message, "user", none, now⟩ ∧
      ∃ t, t ++ j.conversation_history =
        ((⟨mid, req.message, "user", none, now⟩ : Message) :: s.conv uid).reverse := by
  have hconv : (applyEffect s (Effect.ledgerAppend uid
      (⟨mid, req.message, "user", none, now⟩ : Message))).conv uid =
      (⟨mid, req.message, "user", none, now⟩ : Message) :: s.conv uid := by
    simp [applyEffect, Function.update_same]
  simp only [send_message, hc, Bool.false_eq_true, if_false]
  rw [hconv]
  obtain ⟨h1, h2, h3⟩ :=
    context_shape (⟨mid, req.message, "user", none, now⟩ : Message) (s.conv uid)
  exact ⟨_, rfl, h1, h2, h3⟩

/-- Witness for C4 at a concrete non-casual dispatch. -/
theorem job_context_bounded_witness :
    (agentFalsyOrAuto (some "scheduler") && casualYes.is_casual "plan my day") = false ∧
    ∃ j : Job,
      (send_message casualYes "u" ⟨"plan my day", some "scheduler"⟩ 0 1 2 3 emptyStore).1 =
        [Effect.ledgerAppend "u" ⟨0, "plan my day", "user", none, 2⟩, Effect.jobEnqueue j] ∧
      j.conversation_history.length ≤ 6 ∧
      j.conversation_history.getLast? = some ⟨0, "plan my day", "user", none, 2⟩ ∧
      ∃ t, t ++ j.conversation_history =
        ((⟨0, "plan my day", "user", none, 2⟩ : Message) :: emptyStore.conv "u").reverse :=
  ⟨by decide, job_context_bounded casualYes "u" ⟨"plan my day", some "scheduler"⟩
    0 1 2 3 emptyStore (by decide)⟩

/-- Counterexample to C5: with `agent = some ""` — provided and distinct
from the sentinel "auto" — the casual check is not skipped: the casual
path runs (a Response Channel write happens) and no Job at all is
created, so no Job carries the explicit agent "". -/
theorem explicit_agent_empty_cex :
    (some "" ≠ (none : Option String)) ∧ (some "" ≠ some "auto") ∧
    ((send_message casualYes "u" ⟨"hi", some ""⟩ 0 1 2 3 emptyStore).1).countP isJobEnqueue = 0 ∧
    (∃ bm, Effect.responsePublish "u" bm ∈
      (send_message casualYes "u" ⟨"hi", some ""⟩ 0 1 2 3 emptyStore).1) := by
  refine ⟨by decide, by decide, by decide,
    ⟨⟨1, "Hello! How can I help?", "bot", some "casual", 3⟩, by decide⟩⟩

/-- C5 as amended: when the explicit agent is provided, non-empty and
not "auto", the classifier is never consulted (the dispatch outcome is
the same for any two classifiers) and the single created Job's target
agent is exactly the explicit agent. -/
theorem explicit_agent_skips_classifier (R Rp : Routing) (uid : String) (req : MessageRequest)
    (mid rid now now2 : Nat) (s : Store) (a : String)
    (ha : req.agent = some a) (h1 : a ≠ "") (h2 : a ≠ "auto") :
    send_message R uid req mid rid now now2 s = send_message Rp uid req mid rid now now2 s ∧
    ∃ j : Job,
      (send_message R uid req mid rid now now2 s).1 =
        [Effect.ledgerAppend uid ⟨mid, req.message, "user", none, now⟩, Effect.jobEnqueue j] ∧
      j.current_agent = a := by
  have hfa : agentFalsyOrAuto req.agent = false := by
    simp [agentFalsyOrAuto, ha, h1, h2]
  have hpa : ∀ Q : Routing, pickAgent Q req = a := by
    intro Q
    simp [pickAgent, ha, h1, h2]
  constructor
  · simp only [send_message, hfa, Bool.false_and, Bool.false_eq_true, if_false, hpa]
  · simp only [send_message, hfa, Bool.false_and, Bool.false_eq_true, if_false]
    exact ⟨_, rfl, hpa R⟩

/-- Witness for the amended C5 with explicit agent "scheduler". -/
theorem explicit_agent_skips_classifier_witness :
    send_message casualYes "u" ⟨"remind me", some "scheduler"⟩ 0 1 2 3 emptyStore =
      send_message casualNo "u" ⟨"remind me", some "scheduler"⟩ 0 1 2 3 emptyStore ∧
    ∃ j : Job,
      (send_message casualYes "u" ⟨"remind me", some "scheduler"⟩ 0 1 2 3 emptyStore).1 =
        [Effect.ledgerAppend "u" ⟨0, "remind me", "user", none, 2⟩, Effect.jobEnqueue j] ∧
      j.current_agent = "scheduler" :=
  explicit_agent_skips_classifier casualYes casualNo "u" ⟨"remind me", some "scheduler"⟩
    0 1 2 3 emptyStore "scheduler" rfl (by decide) (by decide)

/-- Counterexample to C6: a whitespace-only message is not rejected —
it is appended to the Ledger as a user entry and a Job is enqueued for
it, so side effects do occur where the claim requires none. -/
theorem whitespace_not_rejected_cex :
    isBlank " " = true ∧
    ((send_message casualNo "u" ⟨" ", none⟩ 0 1 2 3 emptyStore).1).countP (isUserLedger "u") = 1 ∧
    ((send_message casualNo "u" ⟨" ", none⟩ 0 1 2 3 emptyStore).1).countP isJobEnqueue = 1 := by
  decide

/-- C6 as amended: `send_message` performs no validation; an empty or
whitespace-only message is dispatched like any other, its user Message
appended to the Ledger first, with no error path. -/
theorem blank_text_dispatched (R : Routing) (uid : String) (req : MessageRequest)
    (mid rid now now2 : Nat) (s : Store) (h : isBlank req.message = true) :
    ((send_message R uid req mid rid now now2 s).1).head? =
      some (Effect.ledgerAppend uid ⟨mid, req.message, "user", none, now⟩) ∧
    ((send_message R uid req mid rid now now2 s).1).countP (isUserLedger uid) = 1 := by
  unfold send_message
  cases hb : agentFalsyOrAuto req.agent && R.is_casual req.message with
  | true => simp [hb, List.countP_cons, isUserLedger]
  | false => simp [hb, List.countP_cons, isUserLedger]

/-- Witness for the amended C6 at the whitespace-only message " ". -/
theorem blank_text_dispatched_witness :
    isBlank " " = true ∧
    (((send_message casualYes "u" ⟨" ", none⟩ 0 1 2 3 emptyStore).1).head? =
      some (Effect.ledgerAppend "u" ⟨0, " ", "user", none, 2⟩) ∧
    ((send_message casualYes "u" ⟨" ", none⟩ 0 1 2 3 emptyStore).1).countP (isUserLedger "u") = 1) :=
  ⟨by decide, blank_text_dispatched casualYes "u" ⟨" ", none⟩ 0 1 2 3 emptyStore (by decide)⟩

/-- Counterexample to C7: with no explicit agent and a classifier whose
casual check raises, `send_message` does not complete normally — the
failure propagates to the caller instead of being recovered by
fallback routing. -/
theorem classifier_failure_propagates_cex :
    send_messageF failClassifier "u" ⟨"hello", none⟩ 0 1 2 3 emptyStore
      = Except.error "boom" := rfl

/-- C7 as amended: the handler wraps no classifier call in an exception
handler, so whenever the casual check is consulted and raises, the
whole dispatch call fails with that same error. -/
theorem classifier_failure_propagates (RF : RoutingF) (uid : String) (req : MessageRequest)
    (mid rid now now2 : Nat) (s : Store) (err : String)
    (h1 : agentFalsyOrAuto req.agent = true)
    (h2 : RF.is_casual req.message = Except.error err) :
    send_messageF RF uid req mid rid now now2 s = Except.error err := by
  simp only [send_messageF, h1, if_true]
  rw [h2]
  rfl

/-- Witness for the amended C7 at the failing classifier fixture. -/
theorem classifier_failure_propagates_witness :
    agentFalsyOrAuto (none : Option String) = true ∧
    failClassifier.is_casual "hello" = Except.error "boom" ∧
    send_messageF failClassifier "u2" ⟨"hello", none⟩ 4 5 6 7 emptyStore = Except.error "boom" :=
  ⟨rfl, rfl, classifier_failure_propagates failClassifier "u2" ⟨"hello", none⟩
    4 5 6 7 emptyStore "boom" rfl rfl⟩

/-- C8: two consecutive drains with no intervening publish: the first
returns everything queued for the user and the second returns the empty
list — draining empties the Response Channel. -/
theorem double_drain (u : String) (s : Store) :
    (check_pending_messages u s).1 = s.resp u ∧
    (check_pending_messages u (check_pending_messages u s).2).1 = [] := by
  constructor
  · simp [check_pending_messages, drainLoop_eq]
  · simp [check_pending_messages, drainLoop_eq, Function.update_same]

/-- Counterexample to C9: with two entries pending, one stream tick
emits only the head entry and leaves the other queued — the tick does
not drain all pending entries. -/
theorem stream_tick_single_pop_cex :
    twoPendingStore.resp "u" = [msgB, msgA] ∧
    (message_stream_tick "u" twoPendingStore).1 = StreamEvent.dataEvent msgB ∧
    ((message_stream_tick "u" twoPendingStore).2).resp "u" = [msgA] := by decide

/-- C9 as amended: each stream tick pops at most one pending entry —
emitting it as a discrete event, or a heartbeat when none is pending —
and the only mutation is the same atomic head-pop the poll adapter
iterates, so the emitted entry plus what a subsequent poll drains is
exactly the pre-tick channel content: nothing is lost or duplicated
when switching between streaming and polling. -/
theorem stream_tick_pops_at_most_one (u : String) (s : Store) :
    (s.resp u = [] →
      (message_stream_tick u s).1 = StreamEvent.heartbeat ∧
      (message_stream_tick u s).2 = s) ∧
    (∀ m rest, s.resp u = m :: rest →
      (message_stream_tick u s).1 = StreamEvent.dataEvent m ∧
      ((message_stream_tick u s).2).resp u = rest) ∧
    emittedOf (message_stream_tick u s).1 ++
      (check_pending_messages u (message_stream_tick u s).2).1 = s.resp u := by
  refine ⟨?_, ?_, ?_⟩
  · intro h
    simp [message_stream_tick, h]
  · intro m rest h
    simp [message_stream_tick, h, Function.update_same]
  · cases h : s.resp u with
    | nil => simp [message_stream_tick, h, emittedOf, check_pending_messages, drainLoop_eq]
    | cons m rest =>
        simp [message_stream_tick, h, emittedOf, check_pending_messages, drainLoop_eq,
          Function.update_same]

/-- Witness for the amended C9 at the two-entries-pending fixture. -/
theorem stream_tick_pops_at_most_one_witness :
    (message_stream_tick "u" twoPendingStore).1 = StreamEvent.dataEvent msgB ∧
    ((message_stream_tick "u" twoPendingStore).2).resp "u" = [msgA] :=
  (stream_tick_pops_at_most_one "u" twoPendingStore).2.1 msgB [msgA] (by decide)

/-- C10: for limit ≥ 1 the history endpoint returns at most `limit`
messages, the most recent ones, oldest-first (the reverse of the stored
newest-first slice); for limit = 0 it returns every stored message for
the user, because `lrange` with end index `limit - 1 = -1` selects the
entire list. -/
theorem history_limit_semantics (u : String) (s : Store) (limit : Int) :
    (1 ≤ limit →
      get_message_history u limit s = ((s.conv u).take limit.toNat).reverse ∧
      (get_message_history u limit s).length ≤ limit.toNat) ∧
    (limit = 0 → get_message_history u limit s = (s.conv u).reverse) := by
  constructor
  · intro h
    have hr : redisLrange (s.conv u) 0 (limit - 1) = (s.conv u).take limit.toNat := by
      rw [redisLrange_nonneg _ _ (by omega : (0:Int) ≤ limit - 1)]
      congr 1
      omega
    refine ⟨by simp [get_message_history, hr], ?_⟩
    simp only [get_message_history, hr, List.length_reverse, List.length_take]
    omega
  · intro h
    subst h
    have h01 : (0:Int) - 1 = -1 := by omega
    simp [get_message_history, h01, redisLrange_neg_one]

/-- Witness for C10 at a three-entry Ledger: limit 2 returns the two
most recent entries oldest-first, limit 0 returns all three. -/
theorem history_limit_semantics_witness :
    (get_message_history "u" 2 histStore = ((histStore.conv "u").take (2:Int).toNat).reverse ∧
     (get_message_history "u" 2 histStore).length ≤ (2:Int).toNat) ∧
    get_message_history "u" 0 histStore = (histStore.conv "u").reverse :=
  ⟨(history_limit_semantics "u" histStore 2).1 (by decide),
   (history_limit_semantics "u" histStore 0).2 rfl⟩

end SecondBrain
